import Mathlib

/-!
Verification development for the VoiceMemo-Assistant bot.

The definitions below are a shallow embedding of the program's core logic:

* `summaryBounds`, `lengthOk`, `ollamaCall`, `attemptLoop`, `summarizeRun`,
  `summarize` embed `LLMHandler.summarize` and `LLMHandler._ollama_call`
  from `bot/llm.py`.  The generation backend (an HTTP endpoint) is
  abstracted as a function `ℕ → Option String` giving the raw response of
  the k-th backend call, `none` standing for a transport fault
  (`requests.exceptions.RequestException`).  Python's float arithmetic on
  the tolerance factors is modelled exactly over `ℚ`.
* `Record`, `DB` and the `Database` methods (`saveMessage`,
  `deleteRecordById`, `deleteRecordByTelegramFileId`, `updateSummary`,
  `addNoteToRecord`) embed `bot/database.py`; the SQLite table is a list
  of rows plus the AUTOINCREMENT counter, and each SQL statement becomes
  the corresponding pure list transformation.
* `matchTrailingId`, `matchLeadingHashId`, `onDeleteCommand` embed
  `TelegramBot.on_delete_command` from `bot/telegram_handler.py`
  (the regexes `#?(\d+)$` and `^#(\d+)` are unfolded into explicit
  digit-run extraction).
* `onVoice` embeds the post-transcription part of `TelegramBot.on_voice`.
* `Session`, `applyChoiceAt`, `openSession`, `checkTimeout` embed the
  edit/annotate dialog state machine of
  `voice_memo_assistant/bot/telegram_handler.py`.
-/

/-! ## Data model: the `voice_messages` table (`bot/database.py`) -/

/-- One row of the `voice_messages` table. -/
structure Record where
  id : Nat
  telegram_file_id : String
  text : String
  summarized : String
  note : Option String
  sent_at : String
  user_id : Int
  username : Option String
deriving Repr, DecidableEq

/-- The SQLite database: rows plus the AUTOINCREMENT counter for `id`. -/
structure DB where
  nextId : Nat
  rows : List Record
deriving Repr, DecidableEq

/-- The UNIQUE constraint on `telegram_file_id` declared in the schema. -/
def uniqueRef (db : DB) : Prop :=
  db.rows.Pairwise (fun a b => a.telegram_file_id ≠ b.telegram_file_id)

/-! ## Summarizer (`bot/llm.py`) -/

/-- Target summary window of `LLMHandler.summarize`:
`if n < 500: 150, 250 else: max(150, n // 5), n // 3`. -/
def summaryBounds (n : Nat) : Nat × Nat :=
  if n < 500 then (150, 250) else (max 150 (n / 5), n / 3)

/-- `min_allowed = min_len * (1 - deviation_percent / 100)`. -/
def minAllowed (minLen : Nat) (deviationPercent : Int) : ℚ :=
  (minLen : ℚ) * (1 - (deviationPercent : ℚ) / 100)

/-- `max_allowed = max_len * (1 + deviation_percent / 100)`. -/
def maxAllowed (maxLen : Nat) (deviationPercent : Int) : ℚ :=
  (maxLen : ℚ) * (1 + (deviationPercent : ℚ) / 100)

/-- Python's `str.strip()`: drop leading and trailing whitespace.
Written on the character list so that it evaluates inside the kernel. -/
def pyStrip (s : String) : String :=
  ⟨((s.data.dropWhile Char.isWhitespace).reverse.dropWhile
      Char.isWhitespace).reverse⟩

/-- The acceptance check `min_allowed <= length <= max_allowed` performed on
each attempt's output, for an input text of length `n`.  Stated as the
exact scaled-integer comparison (both sides of the source's inequalities
multiplied by 100); `lengthOk_iff` below proves it equal to the source's
`min_len * (1 - d/100) <= length <= max_len * (1 + d/100)` over `ℚ`. -/
def lengthOk (deviationPercent : Int) (n : Nat) (s : String) : Bool :=
  decide (((summaryBounds n).1 : Int) * (100 - deviationPercent) ≤
            (s.length : Int) * 100 ∧
          (s.length : Int) * 100 ≤
            ((summaryBounds n).2 : Int) * (100 + deviationPercent))

/-- The fixed apology string returned by `_ollama_call` on a transport
fault. -/
def APOLOGY_TEXT : String :=
  "Ошибка при генерации резюме. Пожалуйста, попробуйте позже."

/-- `LLMHandler._ollama_call`: on success the response field is stripped
and returned; a `requests` fault is caught and replaced by the fixed
apology string.  `response` is the raw backend answer, `none` = fault. -/
def ollamaCall (response : Option String) : String :=
  match response with
  | some r => pyStrip r
  | none => APOLOGY_TEXT

/-- The stripped output of the k-th `_generate()` call
(`_ollama_call(prompt).strip()`). -/
def genOf (backend : Nat → Option String) (k : Nat) : String :=
  pyStrip (ollamaCall (backend k))

/-- `max_tries = max(1, int(config.get("SUMMARY_MAX_TRIES", 2)))`. -/
def triesOf (triesCfg : Int) : Nat := (max 1 triesCfg).toNat

/-- The `for attempt in range(max_tries)` loop of `summarize`:
`i` is the index of the next attempt, the second argument the number of
remaining attempts.  Returns the final `summary` together with the number
of generation calls made.  Each iteration generates once, breaks if the
length check passes, and on the last iteration keeps the result as-is. -/
def attemptLoop (gen : Nat → String) (ok : String → Bool) :
    Nat → Nat → String × Nat
  | _, 0 => ("", 0)
  | i, m + 1 =>
    if ok (gen i) then (gen i, i + 1)
    else if m = 0 then (gen i, i + 1)
    else attemptLoop gen ok (i + 1) m

/-- `LLMHandler.summarize`, instrumented with the number of backend calls
made.  `deviationPercent` is `SUMMARY_DEVIATION_PERCENT` (default 20),
`triesCfg` is `SUMMARY_MAX_TRIES` (default 2). -/
def summarizeRun (backend : Nat → Option String)
    (deviationPercent triesCfg : Int) (text : String) : String × Nat :=
  attemptLoop (genOf backend) (lengthOk deviationPercent text.length) 0
    (triesOf triesCfg)

/-- `LLMHandler.summarize`: the returned summary string. -/
def summarize (backend : Nat → Option String)
    (deviationPercent triesCfg : Int) (text : String) : String :=
  (summarizeRun backend deviationPercent triesCfg text).1

/-! ## Database methods (`bot/database.py`) -/

/-- The `DO UPDATE SET` clause of `save_message`, applied to the rows
matching the conflicting `telegram_file_id`. -/
def conflictUpdate (telegram_file_id text summary sent_at : String)
    (user_id : Int) (username : Option String) (q : Record) : Record :=
  if q.telegram_file_id == telegram_file_id then
    { q with text := text, summarized := summary, sent_at := sent_at,
             user_id := user_id, username := username }
  else q

/-- `Database.save_message`: `INSERT ... ON CONFLICT(telegram_file_id) DO
UPDATE SET text, summarized, sent_at, user_id, username RETURNING id`.
On conflict the existing row keeps its `id`, `telegram_file_id` and
`note`; otherwise a fresh row is appended with the next AUTOINCREMENT
id and a NULL note. -/
def saveMessage (db : DB) (telegram_file_id text summary sent_at : String)
    (user_id : Int) (username : Option String) : Nat × DB :=
  match db.rows.find? (fun r => r.telegram_file_id == telegram_file_id) with
  | some r =>
    (r.id,
     ⟨db.nextId,
      db.rows.map
        (conflictUpdate telegram_file_id text summary sent_at user_id
          username)⟩)
  | none =>
    (db.nextId,
     ⟨db.nextId + 1,
      db.rows ++ [⟨db.nextId, telegram_file_id, text, summary, none,
                   sent_at, user_id, username⟩]⟩)

/-- `Database.delete_record_by_id`: `DELETE FROM voice_messages WHERE
id = ?`, returning `rowcount > 0`. -/
def deleteRecordById (db : DB) (record_id : Nat) : Bool × DB :=
  (db.rows.any (fun r => r.id == record_id),
   ⟨db.nextId, db.rows.filter (fun r => r.id != record_id)⟩)

/-- `Database.delete_record_by_telegram_file_id`: `DELETE ... WHERE
telegram_file_id = ?`, returning `rowcount > 0`. -/
def deleteRecordByTelegramFileId (db : DB) (telegram_file_id : String) :
    Bool × DB :=
  (db.rows.any (fun r => r.telegram_file_id == telegram_file_id),
   ⟨db.nextId,
    db.rows.filter (fun r => r.telegram_file_id != telegram_file_id)⟩)

/-- `Database.update_summary`: `UPDATE voice_messages SET summarized = ?
WHERE id = ?`, returning `rowcount > 0`. -/
def updateSummary (db : DB) (record_id : Nat) (new_summary : String) :
    Bool × DB :=
  (db.rows.any (fun r => r.id == record_id),
   ⟨db.nextId,
    db.rows.map fun r =>
      if r.id == record_id then { r with summarized := new_summary } else r⟩)

/-- `Database.add_note_to_record`: `UPDATE voice_messages SET note = ?
WHERE id = ?`, returning `rowcount > 0`. -/
def addNoteToRecord (db : DB) (record_id : Nat) (note : String) :
    Bool × DB :=
  (db.rows.any (fun r => r.id == record_id),
   ⟨db.nextId,
    db.rows.map fun r =>
      if r.id == record_id then { r with note := some note } else r⟩)

/-- `Database.fetch_record_by_id`: `SELECT * FROM voice_messages WHERE
id = ?`. -/
def fetchRecordById (db : DB) (record_id : Nat) : Option Record :=
  db.rows.find? (fun r => r.id == record_id)

/-! ## Delete-target resolution (`TelegramBot.on_delete_command`) -/

/-- `int()` applied to a digit run. -/
def digitsVal (l : List Char) : Nat :=
  l.foldl (fun acc c => acc * 10 + (c.toNat - '0'.toNat)) 0

/-- The search for `#?(\d+)$` on `message.text.strip()`: a match exists
iff the stripped text ends in a digit, and group 1 is the maximal
trailing digit run (the optional leading `#` never changes the group). -/
def matchTrailingId (text : String) : Option Nat :=
  let run := ((pyStrip text).data.reverse.takeWhile Char.isDigit).reverse
  if run.isEmpty then none else some (digitsVal run)

/-- The search for `^#(\d+)` on a reply's text: a match exists iff the
text starts with `#` followed by a digit; group 1 is the maximal digit
run after the `#`. -/
def matchLeadingHashId (text : String) : Option Nat :=
  match text.data with
  | '#' :: rest =>
    let run := rest.takeWhile Char.isDigit
    if run.isEmpty then none else some (digitsVal run)
  | _ => none

/-- The delete command's reply context: the replied-to message's voice
attachment (its `file_id`) and text, when present. -/
structure ReplyInfo where
  voice : Option String
  text : Option String
deriving Repr, DecidableEq

/-- A delete-intent message: its text and its optional reply context. -/
structure DelMessage where
  text : String
  reply : Option ReplyInfo
deriving Repr, DecidableEq

/-- The user-visible outcome classes of `on_delete_command`:
deletion confirmed (with or without an id in the confirmation), the
"record not found" notice, and the "could not determine the record"
notice listing the three supported input shapes. -/
inductive DeleteOutcome
  | deletedId (record_id : Nat)
  | deletedRef
  | notFound
  | unresolvable
deriving Repr, DecidableEq

/-- Deletion via an explicit record id, reporting not-found on a miss. -/
def deleteViaId (db : DB) (record_id : Nat) : DeleteOutcome × DB :=
  ((if (deleteRecordById db record_id).1 then .deletedId record_id
    else .notFound),
   (deleteRecordById db record_id).2)

/-- Deletion via a voice attachment's `telegram_file_id`, reporting
not-found on a miss. -/
def deleteViaFileRef (db : DB) (telegram_file_id : String) :
    DeleteOutcome × DB :=
  ((if (deleteRecordByTelegramFileId db telegram_file_id).1
    then .deletedRef else .notFound),
   (deleteRecordByTelegramFileId db telegram_file_id).2)

/-- `TelegramBot.on_delete_command`: strategy 1 (trailing id in the
message text), then — only when it does not match — strategy 2 (reply to
a voice message) and strategy 3 (reply to text starting with `#id`);
otherwise the unresolvable notice. -/
def onDeleteCommand (db : DB) (msg : DelMessage) : DeleteOutcome × DB :=
  match matchTrailingId msg.text with
  | some record_id => deleteViaId db record_id
  | none =>
    match msg.reply with
    | some reply =>
      match reply.voice with
      | some file_id => deleteViaFileRef db file_id
      | none =>
        match reply.text with
        | some rtext =>
          match matchLeadingHashId rtext with
          | some record_id => deleteViaId db record_id
          | none => (.unresolvable, db)
        | none => (.unresolvable, db)
    | none => (.unresolvable, db)

/-! ## Ingestion pipeline (`TelegramBot.on_voice`) -/

/-- User-visible outcome of the post-transcription pipeline: either the
recognition-failure notice or the reply carrying the record id and the
summary. -/
inductive VoiceOutcome
  | recognitionFailure
  | replied (record_id : Nat) (summary : String)
deriving Repr, DecidableEq

/-- The post-transcription part of `TelegramBot.on_voice`: `text` is the
transcriber's output.  Below the minimum viable length (5 characters)
the pipeline short-circuits with the recognition-failure notice and
leaves the store untouched; otherwise it summarizes, persists via
`save_message` and replies with the assigned id and the summary.  The
transport download step and the outer generic exception boundary are
external to this embedding. -/
def onVoice (db : DB) (text : String) (backend : Nat → Option String)
    (deviationPercent triesCfg : Int) (file_id sent_at : String)
    (user_id : Int) (username : Option String) : VoiceOutcome × DB :=
  if text.length < 5 then (.recognitionFailure, db)
  else
    (.replied
      (saveMessage db file_id text
        (summarize backend deviationPercent triesCfg text) sent_at
        user_id username).1
      (summarize backend deviationPercent triesCfg text),
     (saveMessage db file_id text
        (summarize backend deviationPercent triesCfg text) sent_at
        user_id username).2)

/-! ## Edit/annotate dialog session
(`voice_memo_assistant/bot/telegram_handler.py`) -/

/-- A live `AWAITING_CHOICE` dialog session: the pending data captured at
entry (`context.user_data["record_id"]`, `context.user_data["new_text"]`)
plus its expiry instant. -/
structure Session where
  record_id : Nat
  pending_text : String
  expiry : Nat
deriving Repr, DecidableEq

/-- The state the dialog machine acts on: the record store and the
(at most one) live session; `none` is the `IDLE` state. -/
structure World where
  db : DB
  sess : Option Session
deriving Repr, DecidableEq

/-- The three mutually exclusive choices offered while awaiting a
choice. -/
inductive Choice
  | edit
  | note
  | cancel
deriving Repr, DecidableEq

/-- User-visible replies of the choice handlers; `ignored` is the absence
of any handler run (no live unexpired session). -/
inductive ChoiceReply
  | summaryUpdated
  | noteAdded
  | cancelled
  | notFound
  | invariantError
  | ignored
deriving Repr, DecidableEq

/-- `conversation_timeout=300` (5 minutes, in seconds). -/
def SESSION_TIMEOUT : Nat := 300

/-- Session entry (`on_reply_to_summary_for_edit` succeeding): capture
`(record_id, pending_text)` and start the inactivity timeout at `t`. -/
def openSession (w : World) (t : Nat) (record_id : Nat) (text : String) :
    World :=
  ⟨w.db, some ⟨record_id, text, t + SESSION_TIMEOUT⟩⟩

/-- Modelled from the spec: the timeout gating itself lives in the chat
framework's `ConversationHandler` (configured with
`conversation_timeout=300` in `setup_handlers`), not in this repository;
per the spec an expired session auto-closes and "an expired session is
never acted upon".  The unexpired branches embed the source's
`handle_edit_summary_callback`, `handle_add_note_callback` and
`handle_cancel_callback` bodies, including their guard
`if record_id and new_text` and the final clearing of the session
data. -/
def applyChoiceAt (w : World) (t : Nat) (c : Choice) :
    World × ChoiceReply :=
  match w.sess with
  | none => (w, .ignored)
  | some s =>
    if s.expiry < t then (⟨w.db, none⟩, .ignored)
    else
      match c with
      | .edit =>
        if s.record_id ≠ 0 ∧ s.pending_text ≠ "" then
          (⟨(updateSummary w.db s.record_id s.pending_text).2, none⟩,
           if (updateSummary w.db s.record_id s.pending_text).1
           then .summaryUpdated else .notFound)
        else (⟨w.db, none⟩, .invariantError)
      | .note =>
        if s.record_id ≠ 0 ∧ s.pending_text ≠ "" then
          (⟨(addNoteToRecord w.db s.record_id s.pending_text).2, none⟩,
           if (addNoteToRecord w.db s.record_id s.pending_text).1
           then .noteAdded else .notFound)
        else (⟨w.db, none⟩, .invariantError)
      | .cancel => (⟨w.db, none⟩, .cancelled)

/-- Modelled from the spec: the passive expiry check — "session
auto-closes to IDLE with no mutation and no required user action" after
the configured inactivity timeout. -/
def checkTimeout (w : World) (t : Nat) : World :=
  match w.sess with
  | none => w
  | some s => if s.expiry < t then ⟨w.db, none⟩ else w

/-- The decidable integer form of the acceptance check agrees with the
source's rational formula `min_allowed <= length <= max_allowed`. -/
theorem lengthOk_iff (d : Int) (n : Nat) (s : String) :
    lengthOk d n s = true ↔
      (minAllowed (summaryBounds n).1 d ≤ (s.length : ℚ) ∧
       (s.length : ℚ) ≤ maxAllowed (summaryBounds n).2 d) := by
  rw [lengthOk, decide_eq_true_iff]
  constructor <;> intro h <;> refine ⟨?_, ?_⟩
  · have h1 := h.1
    rw [minAllowed]
    rw [show ((summaryBounds n).1 : ℚ) * (1 - (d : ℚ) / 100) =
        (((summaryBounds n).1 : Int) * (100 - d) : Int) / 100 by
      push_cast; ring]
    rw [div_le_iff₀ (by norm_num : (0:ℚ) < 100)]
    exact_mod_cast h1
  · have h2 := h.2
    rw [maxAllowed]
    rw [show ((summaryBounds n).2 : ℚ) * (1 + (d : ℚ) / 100) =
        (((summaryBounds n).2 : Int) * (100 + d) : Int) / 100 by
      push_cast; ring]
    rw [le_div_iff₀ (by norm_num : (0:ℚ) < 100)]
    exact_mod_cast h2
  · have h1 := h.1
    rw [minAllowed] at h1
    rw [show ((summaryBounds n).1 : ℚ) * (1 - (d : ℚ) / 100) =
        (((summaryBounds n).1 : Int) * (100 - d) : Int) / 100 by
      push_cast; ring] at h1
    rw [div_le_iff₀ (by norm_num : (0:ℚ) < 100)] at h1
    exact_mod_cast h1
  · have h2 := h.2
    rw [maxAllowed] at h2
    rw [show ((summaryBounds n).2 : ℚ) * (1 + (d : ℚ) / 100) =
        (((summaryBounds n).2 : Int) * (100 + d) : Int) / 100 by
      push_cast; ring] at h2
    rw [le_div_iff₀ (by norm_num : (0:ℚ) < 100)] at h2
    exact_mod_cast h2

/-- The attempt counter never exceeds the remaining-attempt budget. -/
theorem attemptLoop_snd_le (gen : Nat → String) (ok : String → Bool) :
    ∀ (m i : Nat), (attemptLoop gen ok i m).2 ≤ i + m := by
  intro m
  induction m with
  | zero => intro i; simp [attemptLoop]
  | succ m ih =>
    intro i
    simp only [attemptLoop]
    by_cases h : ok (gen i)
    · simp [h]
    · by_cases hm : m = 0
      · simp [h, hm]
      · simp [h, hm]
        have := ih (i + 1)
        omega

/-- The loop stops at the first attempt whose length check passes. -/
theorem attemptLoop_first_ok (gen : Nat → String) (ok : String → Bool) :
    ∀ (j m i : Nat), j < m →
      (∀ k, k < j → ok (gen (i + k)) = false) →
      ok (gen (i + j)) = true →
      attemptLoop gen ok i m = (gen (i + j), i + j + 1) := by
  intro j
  induction j with
  | zero =>
    intro m i hjm _ hok
    obtain ⟨m', rfl⟩ : ∃ m', m = m' + 1 := ⟨m - 1, by omega⟩
    rw [Nat.add_zero] at hok
    simp [attemptLoop, hok]
  | succ j ih =>
    intro m i hjm hbefore hok
    obtain ⟨m', rfl⟩ : ∃ m', m = m' + 1 := ⟨m - 1, by omega⟩
    have h0 : ok (gen i) = false := by
      have := hbefore 0 (by omega)
      simpa using this
    have hm' : ¬ m' = 0 := by omega
    simp only [attemptLoop, h0, if_false, Bool.false_eq_true, hm']
    have hrec := ih m' (i + 1) (by omega)
      (fun k hk => by
        have := hbefore (k + 1) (by omega)
        rwa [show i + (k + 1) = i + 1 + k by omega] at this)
      (by rwa [show i + 1 + j = i + (j + 1) by omega])
    rw [hrec]
    rw [show i + 1 + j = i + (j + 1) by omega]

/-- When every attempt fails the check, the loop returns the final
attempt's output after exhausting the budget. -/
theorem attemptLoop_all_fail (gen : Nat → String) (ok : String → Bool) :
    ∀ (m i : Nat), 1 ≤ m → (∀ k, k < m → ok (gen (i + k)) = false) →
      attemptLoop gen ok i m = (gen (i + (m - 1)), i + m) := by
  intro m
  induction m with
  | zero => intro i h; omega
  | succ m ih =>
    intro i _ hall
    have h0 : ok (gen i) = false := by
      have := hall 0 (by omega)
      simpa using this
    by_cases hm : m = 0
    · subst hm
      simp [attemptLoop, h0]
    · simp only [attemptLoop, h0, if_false, Bool.false_eq_true, hm]
      have hrec := ih (i + 1) (by omega)
        (fun k hk => by
          have := hall (k + 1) (by omega)
          rwa [show i + (k + 1) = i + 1 + k by omega] at this)
      rw [hrec]
      rw [show i + 1 + (m - 1) = i + (m + 1 - 1) by omega,
          show i + 1 + m = i + (m + 1) by omega]

/-- C1.  `summarize` computes the target window as `[150, 250]` for inputs
of length below 500, and `[max 150 (n / 5), n / 3]` otherwise. -/
theorem summarize_window_bounds (n : Nat) :
    (n < 500 → summaryBounds n = (150, 250)) ∧
    (¬ n < 500 → summaryBounds n = (max 150 (n / 5), n / 3)) := by
  constructor <;> intro h <;> simp [summaryBounds, h]

/-- C1 witness: input length 100 yields window `[150, 250]` and input
length 3000 yields window `[600, 1000]`. -/
theorem summarize_window_bounds_witness :
    summaryBounds 100 = (150, 250) ∧ summaryBounds 3000 = (600, 1000) :=
  ⟨(summarize_window_bounds 100).1 (by decide),
   ((summarize_window_bounds 3000).2 (by decide)).trans (by decide)⟩

/-- C2.  `summarize` makes at most `max_tries` attempts (floored at 1);
the first attempt whose stripped output passes the length check is
returned with no further backend calls (the second component counts
generation calls); if no attempt passes, the final attempt's output is
returned as-is after exactly `max_tries` calls. -/
theorem summarize_retry_loop (backend : Nat → Option String)
    (dev triesCfg : Int) (text : String) :
    1 ≤ triesOf triesCfg ∧
    (summarizeRun backend dev triesCfg text).2 ≤ triesOf triesCfg ∧
    (∀ j, j < triesOf triesCfg →
      (∀ k, k < j → lengthOk dev text.length (genOf backend k) = false) →
      lengthOk dev text.length (genOf backend j) = true →
      summarizeRun backend dev triesCfg text = (genOf backend j, j + 1)) ∧
    ((∀ k, k < triesOf triesCfg →
        lengthOk dev text.length (genOf backend k) = false) →
      summarizeRun backend dev triesCfg text =
        (genOf backend (triesOf triesCfg - 1), triesOf triesCfg)) := by
  have hfloor : 1 ≤ triesOf triesCfg := by
    have h := le_max_left (1 : Int) triesCfg
    unfold triesOf
    omega
  refine ⟨hfloor, ?_, ?_, ?_⟩
  · have := attemptLoop_snd_le (genOf backend) (lengthOk dev text.length)
      (triesOf triesCfg) 0
    simpa [summarizeRun] using this
  · intro j hj hb hok
    have := attemptLoop_first_ok (genOf backend) (lengthOk dev text.length)
      j (triesOf triesCfg) 0 hj (by simpa using hb) (by simpa using hok)
    simpa [summarizeRun] using this
  · intro hall
    have := attemptLoop_all_fail (genOf backend) (lengthOk dev text.length)
      (triesOf triesCfg) 0 hfloor (by simpa using hall)
    simpa [summarizeRun] using this

/-- C2 witness: with a backend always producing the empty string (out of
bounds for every window), both default attempts are used and the final
attempt's output is returned as-is. -/
theorem summarize_retry_loop_witness :
    summarizeRun (fun _ => some "") 20 2 "hello" =
      (genOf (fun _ => some "") (triesOf 2 - 1), triesOf 2) :=
  (summarize_retry_loop (fun _ => some "") 20 2 "hello").2.2.2 (by decide)

/-- C3.  `summarize` never raises: a backend fault (`none`) on any attempt
is replaced by the fixed apology string by `_ollama_call`, and the whole
run is identical to a run whose backend answered that attempt with the
apology string — so the apology goes through the same length-bounds
acceptance check as any other output. -/
theorem summarize_fault_degrades (backend : Nat → Option String)
    (dev triesCfg : Int) (text : String) (j : Nat)
    (h : backend j = none) :
    ollamaCall (backend j) = APOLOGY_TEXT ∧
    summarizeRun backend dev triesCfg text =
      summarizeRun (Function.update backend j (some APOLOGY_TEXT))
        dev triesCfg text := by
  have happ : pyStrip APOLOGY_TEXT = APOLOGY_TEXT := by decide
  constructor
  · rw [h]
    rfl
  · have hg : genOf backend =
        genOf (Function.update backend j (some APOLOGY_TEXT)) := by
      funext k
      by_cases hk : k = j
      · subst hk
        simp [genOf, ollamaCall, h, Function.update_apply, happ]
      · simp [genOf, Function.update_apply, hk]
    rw [summarizeRun, summarizeRun, hg]

/-- C3 witness: a backend that always faults is degraded to the apology
string on the first attempt. -/
theorem summarize_fault_degrades_witness :
    ollamaCall ((fun _ => (none : Option String)) 0) = APOLOGY_TEXT ∧
    summarizeRun (fun _ => (none : Option String)) 20 2 "hi" =
      summarizeRun
        (Function.update (fun _ => (none : Option String)) 0
          (some APOLOGY_TEXT)) 20 2 "hi" :=
  summarize_fault_degrades (fun _ => none) 20 2 "hi" 0 rfl

/-- A map whose function fixes every element of the list is the
identity on that list. -/
theorem map_id_of_mem_fixed {α : Type} (l : List α) (f : α → α)
    (h : ∀ a ∈ l, f a = a) : l.map f = l := by
  induction l with
  | nil => rfl
  | cons x xs ih =>
    simp only [List.map_cons, h x (by simp)]
    rw [ih (fun a ha => h a (by simp [ha]))]

/-- C10.  `update_summary` touches only the `summarized` column of rows
with the given id and `add_note_to_record` only the `note` column; every
other column and every other row is untouched, the reported success bit
is exactly row existence, and a miss leaves the store unchanged. -/
theorem update_ops_frame (db : DB) (rid : Nat) (txt : String) :
    ((updateSummary db rid txt).1 = true ↔ ∃ r ∈ db.rows, r.id = rid) ∧
    (updateSummary db rid txt).2.nextId = db.nextId ∧
    List.Forall₂ (fun r r' =>
        r'.id = r.id ∧ r'.telegram_file_id = r.telegram_file_id ∧
        r'.text = r.text ∧ r'.note = r.note ∧ r'.sent_at = r.sent_at ∧
        r'.user_id = r.user_id ∧ r'.username = r.username ∧
        (r.id = rid → r'.summarized = txt) ∧ (r.id ≠ rid → r' = r))
      db.rows (updateSummary db rid txt).2.rows ∧
    ((¬ ∃ r ∈ db.rows, r.id = rid) →
      (updateSummary db rid txt).1 = false ∧
      (updateSummary db rid txt).2 = db) ∧
    ((addNoteToRecord db rid txt).1 = true ↔ ∃ r ∈ db.rows, r.id = rid) ∧
    (addNoteToRecord db rid txt).2.nextId = db.nextId ∧
    List.Forall₂ (fun r r' =>
        r'.id = r.id ∧ r'.telegram_file_id = r.telegram_file_id ∧
        r'.text = r.text ∧ r'.summarized = r.summarized ∧
        r'.sent_at = r.sent_at ∧ r'.user_id = r.user_id ∧
        r'.username = r.username ∧
        (r.id = rid → r'.note = some txt) ∧ (r.id ≠ rid → r' = r))
      db.rows (addNoteToRecord db rid txt).2.rows ∧
    ((¬ ∃ r ∈ db.rows, r.id = rid) →
      (addNoteToRecord db rid txt).1 = false ∧
      (addNoteToRecord db rid txt).2 = db) := by
  refine ⟨?_, rfl, ?_, ?_, ?_, rfl, ?_, ?_⟩
  · simp [updateSummary]
  · rw [updateSummary]
    rw [List.forall₂_map_right_iff]
    rw [List.forall₂_same]
    intro r hr
    by_cases hid : r.id = rid
    · simp [hid]
    · simp [hid]
  · intro hne
    have hall : ∀ r ∈ db.rows, ¬ r.id = rid := by
      intro r hr h
      exact hne ⟨r, hr, h⟩
    constructor
    · simp only [updateSummary, List.any_eq_false]
      intro r hr
      simp [hall r hr]
    · show (⟨db.nextId, _⟩ : DB) = db
      rw [map_id_of_mem_fixed _ _ (fun r hr => by simp [hall r hr])]
  · simp [addNoteToRecord]
  · rw [addNoteToRecord]
    rw [List.forall₂_map_right_iff]
    rw [List.forall₂_same]
    intro r hr
    by_cases hid : r.id = rid
    · simp [hid]
    · simp [hid]
  · intro hne
    have hall : ∀ r ∈ db.rows, ¬ r.id = rid := by
      intro r hr h
      exact hne ⟨r, hr, h⟩
    constructor
    · simp only [addNoteToRecord, List.any_eq_false]
      intro r hr
      simp [hall r hr]
    · show (⟨db.nextId, _⟩ : DB) = db
      rw [map_id_of_mem_fixed _ _ (fun r hr => by simp [hall r hr])]

/-- C10 witness: on a store without row 5, both operations report `false`
and change nothing. -/
theorem update_ops_frame_witness :
    ((updateSummary ⟨1, []⟩ 5 "z").1 = false ∧
      (updateSummary ⟨1, []⟩ 5 "z").2 = ⟨1, []⟩) ∧
    ((addNoteToRecord ⟨1, []⟩ 5 "z").1 = false ∧
      (addNoteToRecord ⟨1, []⟩ 5 "z").2 = ⟨1, []⟩) :=
  ⟨(update_ops_frame ⟨1, []⟩ 5 "z").2.2.2.1 (by decide),
   (update_ops_frame ⟨1, []⟩ 5 "z").2.2.2.2.2.2.2 (by decide)⟩

/-- C4.  Delete-target resolution tries its three strategies in fixed
priority with the first match winning; a trailing non-digit character in
the stripped message text disqualifies strategy 1, and with no reply
context the result is then the unresolvable outcome. -/
theorem delete_resolver_priority (db : DB) (msg : DelMessage) :
    (∀ rid, matchTrailingId msg.text = some rid →
      onDeleteCommand db msg = deleteViaId db rid) ∧
    (∀ rep fid, matchTrailingId msg.text = none → msg.reply = some rep →
      rep.voice = some fid →
      onDeleteCommand db msg = deleteViaFileRef db fid) ∧
    (∀ rep rtext rid, matchTrailingId msg.text = none →
      msg.reply = some rep → rep.voice = none → rep.text = some rtext →
      matchLeadingHashId rtext = some rid →
      onDeleteCommand db msg = deleteViaId db rid) ∧
    (∀ c, (pyStrip msg.text).data.getLast? = some c → ¬ c.isDigit →
      matchTrailingId msg.text = none) ∧
    (matchTrailingId msg.text = none → msg.reply = none →
      onDeleteCommand db msg = (.unresolvable, db)) := by
  refine ⟨?_, ?_, ?_, ?_, ?_⟩
  · intro rid h
    simp only [onDeleteCommand, h]
  · intro rep fid h hrep hv
    simp only [onDeleteCommand, h, hrep, hv]
  · intro rep rtext rid h hrep hv ht hm
    simp only [onDeleteCommand, h, hrep, hv, ht, hm]
  · intro c hlast hdig
    rw [matchTrailingId]
    have hhead : (pyStrip msg.text).data.reverse.head? = some c := by
      rw [List.head?_reverse]
      exact hlast
    obtain ⟨ys, hys⟩ := List.head?_eq_some_iff.mp hhead
    rw [hys, List.takeWhile_cons_of_neg hdig]
    rfl
  · intro h hrep
    simp only [onDeleteCommand, h, hrep]

/-- C4 witness: the text `"delete #42 now"` (trailing non-digits after a
digit run) does not match strategy 1, and with no reply it resolves
unresolvable. -/
theorem delete_resolver_priority_witness :
    onDeleteCommand ⟨1, []⟩ ⟨"delete #42 now", none⟩ =
      (.unresolvable, ⟨1, []⟩) :=
  (delete_resolver_priority ⟨1, []⟩ ⟨"delete #42 now", none⟩).2.2.2.2
    (by decide) rfl

/-- Deletion by id against a store without that id: the not-found notice
and no change to the store. -/
theorem deleteViaId_miss (db : DB) (rid : Nat)
    (hmiss : ∀ r ∈ db.rows, r.id ≠ rid) :
    deleteViaId db rid = (.notFound, db) := by
  have hany : (db.rows.any fun r => r.id == rid) = false := by
    rw [List.any_eq_false]
    intro r hr
    simp [hmiss r hr]
  have hfilter : db.rows.filter (fun r => r.id != rid) = db.rows := by
    rw [List.filter_eq_self]
    intro r hr
    simp [hmiss r hr]
  simp only [deleteViaId, deleteRecordById, hany, hfilter, if_false,
    Bool.false_eq_true]

/-- Deletion by `telegram_file_id` against a store without that ref: the
not-found notice and no change to the store. -/
theorem deleteViaFileRef_miss (db : DB) (fid : String)
    (hmiss : ∀ r ∈ db.rows, r.telegram_file_id ≠ fid) :
    deleteViaFileRef db fid = (.notFound, db) := by
  have hany : (db.rows.any fun r => r.telegram_file_id == fid) = false := by
    rw [List.any_eq_false]
    intro r hr
    simp [hmiss r hr]
  have hfilter :
      db.rows.filter (fun r => r.telegram_file_id != fid) = db.rows := by
    rw [List.filter_eq_self]
    intro r hr
    simp [hmiss r hr]
  simp only [deleteViaFileRef, deleteRecordByTelegramFileId, hany, hfilter,
    if_false, Bool.false_eq_true]

/-- C5.  For every delete-intent message: when no strategy matches — no
trailing id and either no reply, or a reply with neither a voice
attachment nor a leading `#id` text — the outcome is unresolvable; when
any of the three strategies matches but the store has no such record,
the outcome is the distinct not-found notice with no deletion and no
later strategy tried. -/
theorem delete_resolver_not_found (db : DB) (msg : DelMessage) :
    (∀ rid, matchTrailingId msg.text = some rid →
      (∀ r ∈ db.rows, r.id ≠ rid) →
      onDeleteCommand db msg = (.notFound, db)) ∧
    (∀ rep fid, matchTrailingId msg.text = none → msg.reply = some rep →
      rep.voice = some fid →
      (∀ r ∈ db.rows, r.telegram_file_id ≠ fid) →
      onDeleteCommand db msg = (.notFound, db)) ∧
    (∀ rep rtext rid, matchTrailingId msg.text = none →
      msg.reply = some rep → rep.voice = none → rep.text = some rtext →
      matchLeadingHashId rtext = some rid →
      (∀ r ∈ db.rows, r.id ≠ rid) →
      onDeleteCommand db msg = (.notFound, db)) ∧
    (matchTrailingId msg.text = none →
      (msg.reply = none ∨
        ∃ rep, msg.reply = some rep ∧ rep.voice = none ∧
          (rep.text = none ∨
            ∃ rtext, rep.text = some rtext ∧
              matchLeadingHashId rtext = none)) →
      onDeleteCommand db msg = (.unresolvable, db)) ∧
    DeleteOutcome.notFound ≠ DeleteOutcome.unresolvable := by
  refine ⟨?_, ?_, ?_, ?_, by decide⟩
  · intro rid h hmiss
    simp only [onDeleteCommand, h]
    exact deleteViaId_miss db rid hmiss
  · intro rep fid h hrep hv hmiss
    simp only [onDeleteCommand, h, hrep, hv]
    exact deleteViaFileRef_miss db fid hmiss
  · intro rep rtext rid h hrep hv ht hm hmiss
    simp only [onDeleteCommand, h, hrep, hv, ht, hm]
    exact deleteViaId_miss db rid hmiss
  · intro h hcase
    rcases hcase with hnone | ⟨rep, hrep, hv, hcase2⟩
    · simp only [onDeleteCommand, h, hnone]
    · rcases hcase2 with htn | ⟨rtext, hts, hmn⟩
      · simp only [onDeleteCommand, h, hrep, hv, htn]
      · simp only [onDeleteCommand, h, hrep, hv, hts, hmn]

/-- C5 witness, one instance per newly matched shape on an empty store:
`"/delete 99"` (trailing-id miss) and a voice reply (ref miss) are
not-found, and a reply whose text carries no leading `#id` is
unresolvable. -/
theorem delete_resolver_not_found_witness :
    onDeleteCommand ⟨1, []⟩ ⟨"/delete 99", none⟩ = (.notFound, ⟨1, []⟩) ∧
    onDeleteCommand ⟨1, []⟩ ⟨"/delete", some ⟨some "vf", none⟩⟩ =
      (.notFound, ⟨1, []⟩) ∧
    onDeleteCommand ⟨1, []⟩ ⟨"/delete", some ⟨none, some "no id here"⟩⟩ =
      (.unresolvable, ⟨1, []⟩) :=
  ⟨(delete_resolver_not_found ⟨1, []⟩ ⟨"/delete 99", none⟩).1 99
      (by decide) (by decide),
   (delete_resolver_not_found ⟨1, []⟩
      ⟨"/delete", some ⟨some "vf", none⟩⟩).2.1 ⟨some "vf", none⟩ "vf"
      (by decide) rfl rfl (by decide),
   (delete_resolver_not_found ⟨1, []⟩
      ⟨"/delete", some ⟨none, some "no id here"⟩⟩).2.2.2.1 (by decide)
      (Or.inr ⟨⟨none, some "no id here"⟩, rfl, rfl,
        Or.inr ⟨"no id here", rfl, by decide⟩⟩)⟩

/-- `conflictUpdate` never changes the `telegram_file_id` column. -/
theorem conflictUpdate_fid (fid t s a : String) (u : Int)
    (un : Option String) (q : Record) :
    (conflictUpdate fid t s a u un q).telegram_file_id =
      q.telegram_file_id := by
  rw [conflictUpdate]
  split <;> rfl

/-- Under the UNIQUE constraint, filtering on a `telegram_file_id` held
by a member row yields exactly that row. -/
theorem filter_fid_singleton (l : List Record) (fid : String) (r0 : Record)
    (hu : l.Pairwise (fun a b => a.telegram_file_id ≠ b.telegram_file_id))
    (hr0 : r0 ∈ l) (hfid : r0.telegram_file_id = fid) :
    l.filter (fun r => r.telegram_file_id == fid) = [r0] := by
  induction l with
  | nil => cases hr0
  | cons x xs ih =>
    rw [List.pairwise_cons] at hu
    rcases List.mem_cons.mp hr0 with rfl | hmem
    · rw [List.filter_cons_of_pos (by simp [hfid])]
      have hnil : xs.filter (fun r => r.telegram_file_id == fid) = [] := by
        rw [List.filter_eq_nil_iff]
        intro b hb
        simp only [beq_iff_eq]
        intro hbe
        exact (hu.1 b hb) (hfid.trans hbe.symm)
      rw [hnil]
    · have hne : x.telegram_file_id ≠ fid := fun he =>
        (hu.1 r0 hmem) (he.trans hfid.symm)
      rw [List.filter_cons_of_neg (by simp [hne])]
      exact ih hu.2 hmem

/-- Postcondition of one `save_message` call on a store satisfying the
UNIQUE constraint: uniqueness is preserved, exactly one row carries the
saved `telegram_file_id`, that row holds the new field values and the
returned id, other rows are untouched, and a conflicting call returns
the existing row's id without growing the store. -/
theorem saveMessage_spec (db : DB) (fid t s a : String) (u : Int)
    (un : Option String) (hu : uniqueRef db) :
    uniqueRef (saveMessage db fid t s a u un).2 ∧
    ((saveMessage db fid t s a u un).2.rows.filter
        (fun r => r.telegram_file_id == fid)).length = 1 ∧
    (∀ r ∈ (saveMessage db fid t s a u un).2.rows,
      r.telegram_file_id = fid →
      r.id = (saveMessage db fid t s a u un).1 ∧ r.text = t ∧
      r.summarized = s ∧ r.sent_at = a ∧ r.user_id = u ∧
      r.username = un) ∧
    (∀ r ∈ (saveMessage db fid t s a u un).2.rows,
      r.telegram_file_id ≠ fid → r ∈ db.rows) ∧
    (∀ r0 ∈ db.rows, r0.telegram_file_id = fid →
      (saveMessage db fid t s a u un).1 = r0.id ∧
      (saveMessage db fid t s a u un).2.rows.length =
        db.rows.length) := by
  rcases hfind : db.rows.find? (fun r => r.telegram_file_id == fid)
    with _ | rr
  · have hnone : ∀ x ∈ db.rows, x.telegram_file_id ≠ fid := by
      intro x hx he
      have := List.find?_eq_none.mp hfind x hx
      simp [he] at this
    simp only [saveMessage, hfind]
    refine ⟨?_, ?_, ?_, ?_, ?_⟩
    · rw [uniqueRef]
      rw [List.pairwise_append]
      refine ⟨hu, List.pairwise_singleton _ _, ?_⟩
      intro p hp b hb
      simp only [List.mem_singleton] at hb
      subst hb
      exact hnone p hp
    · rw [List.filter_append]
      have h1 : db.rows.filter (fun r => r.telegram_file_id == fid) = [] := by
        rw [List.filter_eq_nil_iff]
        intro b hb
        simp [hnone b hb]
      rw [h1]
      simp
    · intro r hr hrfid
      rcases List.mem_append.mp hr with h | h
      · exact absurd hrfid (hnone r h)
      · simp only [List.mem_singleton] at h
        subst h
        exact ⟨rfl, rfl, rfl, rfl, rfl, rfl⟩
    · intro r hr hrne
      rcases List.mem_append.mp hr with h | h
      · exact h
      · simp only [List.mem_singleton] at h
        subst h
        exact absurd rfl hrne
    · intro r0 h0 hf
      exact absurd hf (hnone r0 h0)
  · have hrrmem : rr ∈ db.rows := List.mem_of_find?_eq_some hfind
    have hrrfid : rr.telegram_file_id = fid := by
      have := List.find?_some hfind
      simpa using this
    have hsingle : db.rows.filter (fun r => r.telegram_file_id == fid) =
        [rr] := filter_fid_singleton db.rows fid rr hu hrrmem hrrfid
    simp only [saveMessage, hfind]
    refine ⟨?_, ?_, ?_, ?_, ?_⟩
    · rw [uniqueRef]
      rw [List.pairwise_map]
      exact hu.imp (fun h => by rwa [conflictUpdate_fid, conflictUpdate_fid])
    · rw [List.filter_map]
      have hcong : db.rows.filter
          ((fun r => r.telegram_file_id == fid) ∘
            conflictUpdate fid t s a u un) =
          db.rows.filter (fun r => r.telegram_file_id == fid) := by
        apply List.filter_congr
        intro b hb
        simp [Function.comp, conflictUpdate_fid]
      rw [hcong, hsingle]
      simp
    · intro r hr hrfid
      obtain ⟨q, hq, rfl⟩ := List.mem_map.mp hr
      have hqfid : q.telegram_file_id = fid := by
        rw [← conflictUpdate_fid fid t s a u un q]
        exact hrfid
      have hq_eq : q = rr := by
        have hqf : q ∈ db.rows.filter
            (fun r => r.telegram_file_id == fid) :=
          List.mem_filter.mpr ⟨hq, by simp [hqfid]⟩
        rw [hsingle] at hqf
        simpa using hqf
      subst hq_eq
      simp [conflictUpdate, hqfid]
    · intro r hr hrne
      obtain ⟨q, hq, rfl⟩ := List.mem_map.mp hr
      have hqfid : q.telegram_file_id ≠ fid := by
        rw [← conflictUpdate_fid fid t s a u un q]
        exact hrne
      have hfix : conflictUpdate fid t s a u un q = q := by
        simp [conflictUpdate, hqfid]
      rw [hfix]
      exact hq
    · intro r0 h0 hf
      have h0eq : r0 = rr := by
        have h0f : r0 ∈ db.rows.filter
            (fun r => r.telegram_file_id == fid) :=
          List.mem_filter.mpr ⟨h0, by simp [hf]⟩
        rw [hsingle] at h0f
        simpa using h0f
      exact ⟨by rw [h0eq], by simp⟩

/-- C6.  Two `save_message` calls with the same `telegram_file_id` hit
the same row: the second call returns the first call's id, the store
still holds exactly one row with that `telegram_file_id` and no more
rows than before, that row carries the second call's transcript,
summary, timestamp and author fields under the unchanged id, and every
other row is untouched. -/
theorem upsert_idempotent (db : DB) (fid t1 s1 a1 t2 s2 a2 : String)
    (u1 u2 : Int) (n1 n2 : Option String) (hu : uniqueRef db) :
    (saveMessage (saveMessage db fid t1 s1 a1 u1 n1).2
        fid t2 s2 a2 u2 n2).1 =
      (saveMessage db fid t1 s1 a1 u1 n1).1 ∧
    ((saveMessage (saveMessage db fid t1 s1 a1 u1 n1).2
        fid t2 s2 a2 u2 n2).2.rows.filter
          (fun r => r.telegram_file_id == fid)).length = 1 ∧
    (saveMessage (saveMessage db fid t1 s1 a1 u1 n1).2
        fid t2 s2 a2 u2 n2).2.rows.length =
      (saveMessage db fid t1 s1 a1 u1 n1).2.rows.length ∧
    (∀ r ∈ (saveMessage (saveMessage db fid t1 s1 a1 u1 n1).2
        fid t2 s2 a2 u2 n2).2.rows,
      r.telegram_file_id = fid →
      r.id = (saveMessage db fid t1 s1 a1 u1 n1).1 ∧ r.text = t2 ∧
      r.summarized = s2 ∧ r.sent_at = a2 ∧ r.user_id = u2 ∧
      r.username = n2) ∧
    (∀ r ∈ (saveMessage (saveMessage db fid t1 s1 a1 u1 n1).2
        fid t2 s2 a2 u2 n2).2.rows,
      r.telegram_file_id ≠ fid →
      r ∈ (saveMessage db fid t1 s1 a1 u1 n1).2.rows) := by
  obtain ⟨hu1, hlen1, hfields1, _, _⟩ :=
    saveMessage_spec db fid t1 s1 a1 u1 n1 hu
  obtain ⟨r1, hr1⟩ := List.length_eq_one.mp hlen1
  have hr1filter : r1 ∈ (saveMessage db fid t1 s1 a1 u1 n1).2.rows.filter
      (fun r => r.telegram_file_id == fid) := by
    rw [hr1]
    exact List.mem_singleton_self r1
  have hr1mem := (List.mem_filter.mp hr1filter).1
  have hr1fid : r1.telegram_file_id = fid := by
    have := (List.mem_filter.mp hr1filter).2
    simpa using this
  have hr1id : r1.id = (saveMessage db fid t1 s1 a1 u1 n1).1 :=
    (hfields1 r1 hr1mem hr1fid).1
  obtain ⟨_, hlen2, hfields2, hframe2, hexist2⟩ :=
    saveMessage_spec (saveMessage db fid t1 s1 a1 u1 n1).2
      fid t2 s2 a2 u2 n2 hu1
  have hid2 := hexist2 r1 hr1mem hr1fid
  refine ⟨by rw [hid2.1, hr1id], hlen2, hid2.2, ?_, hframe2⟩
  intro r hr hrfid
  refine ⟨?_, (hfields2 r hr hrfid).2⟩
  rw [(hfields2 r hr hrfid).1, hid2.1, hr1id]

/-- C6 witness: on an empty store, persisting twice under the same
`telegram_file_id` yields the same record id both times. -/
theorem upsert_idempotent_witness :
    (saveMessage (saveMessage ⟨1, []⟩ "f" "t1" "s1" "a1" 7 none).2
        "f" "t2" "s2" "a2" 8 (some "u")).1 =
      (saveMessage ⟨1, []⟩ "f" "t1" "s1" "a1" 7 none).1 :=
  (upsert_idempotent ⟨1, []⟩ "f" "t1" "s1" "a1" "t2" "s2" "a2" 7 8 none
    (some "u") List.Pairwise.nil).1

/-- C7.  A transcription shorter than 5 characters short-circuits the
ingestion pipeline: the outcome is the recognition-failure notice, the
store is unchanged, and the summarizer is never consulted (the run is
independent of the generation backend). -/
theorem voice_short_transcript_short_circuits (db : DB) (text : String)
    (backend : Nat → Option String) (dev tries : Int)
    (fid sent : String) (uid : Int) (un : Option String)
    (h : text.length < 5) :
    onVoice db text backend dev tries fid sent uid un =
      (.recognitionFailure, db) ∧
    (∀ backend2 : Nat → Option String,
      onVoice db text backend dev tries fid sent uid un =
        onVoice db text backend2 dev tries fid sent uid un) := by
  have he : ∀ b : Nat → Option String,
      onVoice db text b dev tries fid sent uid un =
        (.recognitionFailure, db) := by
    intro b
    simp [onVoice, h]
  exact ⟨he backend, fun b2 => (he backend).trans (he b2).symm⟩

/-- C7 witness: the two-character transcription `"hi"` short-circuits
with no store change. -/
theorem voice_short_transcript_short_circuits_witness :
    onVoice ⟨1, []⟩ "hi" (fun _ => none) 20 2 "f" "a" 1 none =
      (.recognitionFailure, ⟨1, []⟩) :=
  (voice_short_transcript_short_circuits ⟨1, []⟩ "hi" (fun _ => none)
    20 2 "f" "a" 1 none (by decide)).1

/-- C8.  In `AWAITING_CHOICE` with pending data for an existing record,
the edit choice overwrites that record's summary with the pending text,
the note choice sets its note, the cancel choice mutates nothing; every
choice clears the pending data and closes the session, so any further
choice is ignored and mutates nothing. -/
theorem edit_choice_semantics (w : World) (s : Session) (t : Nat)
    (hs : w.sess = some s) (ht : ¬ s.expiry < t)
    (hrid : s.record_id ≠ 0) (htxt : s.pending_text ≠ "")
    (hex : ∃ r ∈ w.db.rows, r.id = s.record_id) :
    applyChoiceAt w t .edit =
      (⟨(updateSummary w.db s.record_id s.pending_text).2, none⟩,
       .summaryUpdated) ∧
    applyChoiceAt w t .note =
      (⟨(addNoteToRecord w.db s.record_id s.pending_text).2, none⟩,
       .noteAdded) ∧
    applyChoiceAt w t .cancel = (⟨w.db, none⟩, .cancelled) ∧
    (∀ c t' c', applyChoiceAt (applyChoiceAt w t c).1 t' c' =
      ((applyChoiceAt w t c).1, .ignored)) := by
  have hcond : s.record_id ≠ 0 ∧ s.pending_text ≠ "" := ⟨hrid, htxt⟩
  have hany : (w.db.rows.any (fun r => r.id == s.record_id)) = true := by
    rw [List.any_eq_true]
    obtain ⟨r, hr, hid⟩ := hex
    exact ⟨r, hr, by simp [hid]⟩
  refine ⟨?_, ?_, ?_, ?_⟩
  · simp only [applyChoiceAt, hs, if_neg ht, if_pos hcond, updateSummary,
      hany, if_true]
  · simp only [applyChoiceAt, hs, if_neg ht, if_pos hcond, addNoteToRecord,
      hany, if_true]
  · simp only [applyChoiceAt, hs, if_neg ht]
  · intro c t' c'
    have hnone : (applyChoiceAt w t c).1.sess = none := by
      cases c <;>
        simp only [applyChoiceAt, hs, if_neg ht, if_pos hcond]
    set w2 := (applyChoiceAt w t c).1 with hw2
    simp only [applyChoiceAt, hnone]

/-- C8 witness: a live session over record 1 with pending text `"x"`,
acted on at time 0, applies the edit choice to record 1's summary. -/
theorem edit_choice_semantics_witness :
    applyChoiceAt
        ⟨⟨2, [⟨1, "f", "t", "s", none, "a", 7, none⟩]⟩,
         some ⟨1, "x", 300⟩⟩ 0 .edit =
      (⟨(updateSummary ⟨2, [⟨1, "f", "t", "s", none, "a", 7, none⟩]⟩
            1 "x").2, none⟩,
       .summaryUpdated) :=
  (edit_choice_semantics
    ⟨⟨2, [⟨1, "f", "t", "s", none, "a", 7, none⟩]⟩, some ⟨1, "x", 300⟩⟩
    ⟨1, "x", 300⟩ 0 rfl (by decide) (by decide) (by decide)
    (by decide)).1

/-- C9.  A session opened at `t0` carries expiry `t0 + 300` seconds
(5 minutes); strictly after that instant the passive check auto-closes
it back to IDLE with the store untouched, and a choice delivered after
expiry is ignored and mutates nothing. -/
theorem session_timeout_inert (w : World) (t0 record_id : Nat)
    (text : String) (t : Nat) (c : Choice)
    (h : t0 + SESSION_TIMEOUT < t) :
    (openSession w t0 record_id text).sess =
      some ⟨record_id, text, t0 + SESSION_TIMEOUT⟩ ∧
    checkTimeout (openSession w t0 record_id text) t = ⟨w.db, none⟩ ∧
    applyChoiceAt (openSession w t0 record_id text) t c =
      (⟨w.db, none⟩, .ignored) := by
  refine ⟨rfl, ?_, ?_⟩
  · simp [checkTimeout, openSession, h]
  · simp [applyChoiceAt, openSession, h]

/-- C9 witness: a session opened at time 0 checked at time 301
(5 minutes plus one second later) is inert and closed, and a late edit
choice is ignored. -/
theorem session_timeout_inert_witness :
    checkTimeout (openSession ⟨⟨1, []⟩, none⟩ 0 1 "x") 301 =
      ⟨⟨1, []⟩, none⟩ ∧
    applyChoiceAt (openSession ⟨⟨1, []⟩, none⟩ 0 1 "x") 301 Choice.edit =
      (⟨⟨1, []⟩, none⟩, .ignored) :=
  ⟨(session_timeout_inert ⟨⟨1, []⟩, none⟩ 0 1 "x" 301 Choice.edit
      (by decide)).2.1,
   (session_timeout_inert ⟨⟨1, []⟩, none⟩ 0 1 "x" 301 Choice.edit
      (by decide)).2.2⟩
